import Mathlib

/-!
Verification of the substance-finder matching-and-statistics pipeline
(`src/processor.py`) against its natural-language specification.

The shallow embedding below models:
  * tabular data (`DataFrame`): a row count plus an ordered list of named
    columns whose cells are `Option String` (a `none` cell is a pandas NaN);
  * Python string primitives `strip` / `lower` / `startswith` at the
    character-list level (`strTrim`, `strLower`, `strStartsWith`);
  * the tolerant parameter handling of `process_df` (`Params`, `_parse_bool`,
    `pyOrDefault`);
  * the matching primitive of the repository's `utils.py`, which is not among
    the given sources — those definitions are modelled from the spec and say
    so in their doc comments;
  * the statistics aggregation of `process_df`, split field by field
    (`totalRows`, `missingMask`, `missingCount`, `missingPct`,
    `uniqueTotalValues`, `uniqueMissingCount`, `uniqueMissingPct`,
    `uniqueMissingExamples`) exactly along the formulas of lines 113-176.

Machine floats of the Python code are modelled as exact rationals; the
wall-clock reading `time.time() - start` is modelled as an explicit
`elapsed : Rat` input to `process_df`.
-/

namespace SubstanceFinder

/-- Python `str.strip()`: drop leading and trailing whitespace. -/
def strTrim (s : String) : String :=
  ⟨((s.data.dropWhile Char.isWhitespace).reverse.dropWhile Char.isWhitespace).reverse⟩

/-- Python `str.lower()` (ASCII case folding suffices for the claims). -/
def strLower (s : String) : String :=
  ⟨s.data.map Char.toLower⟩

/-- Python `str.startswith(pre)`. -/
def strStartsWith (s pre : String) : Bool :=
  pre.data.isPrefixOf s.data

/-- A table cell: `none` models a pandas NaN / absent value. -/
abbrev Cell := Option String

/-- A pandas DataFrame: a row count and an ordered list of named columns.
In a well-formed frame every column has exactly `nrows` cells. -/
structure DataFrame where
  nrows : Nat
  cols : List (String × List Cell)
deriving DecidableEq

/-- The ordered list of column names (`df.columns`). -/
def DataFrame.colNames (df : DataFrame) : List String :=
  df.cols.map (fun c => c.1)

/-- Column lookup `df[name]`: the first column with the given name. -/
def DataFrame.getCol (df : DataFrame) (name : String) : Option (List Cell) :=
  (df.cols.find? (fun c => c.1 == name)).map (fun c => c.2)

/-- Rectangularity invariant of a pandas DataFrame: every column holds
exactly `nrows` cells. -/
def DataFrame.WF (df : DataFrame) : Prop :=
  ∀ c ∈ df.cols, c.2.length = df.nrows

instance (df : DataFrame) : Decidable df.WF :=
  decidable_of_iff (∀ c ∈ df.cols, c.2.length = df.nrows) Iff.rfl

/-- `str(value)` rendering of a cell, as pandas `astype(str)` does: a NaN
cell renders as the string "nan". -/
def cellToStr (c : Cell) : String :=
  match c with
  | Option.none => "nan"
  | some s => s

/-- The missing test applied to one cell of the mapped column
(processor.py line 127): `isna()`, or the trimmed string rendering is empty. -/
def isMissingCell (c : Cell) : Bool :=
  c.isNone || (strTrim (cellToStr c) == "")

/-- A Python value as it can appear in the `params` dict entries that
`_parse_bool` receives: `None`, a `bool`, or any other value represented by
its `str(...)` rendering. -/
inductive PyVal where
  | none : PyVal
  | bool (b : Bool) : PyVal
  | str (s : String) : PyVal
deriving DecidableEq

/-- processor.py lines 47-54: tolerant boolean parser for form values. -/
def _parse_bool (value : PyVal) (default : Bool) : Bool :=
  match value with
  | PyVal.none => default
  | PyVal.bool b => b
  | PyVal.str s => ["1", "true", "yes", "on"].contains (strLower (strTrim s))

/-- Python's `round(q, places)` modelled on exact rationals (half rounds up;
the exact tie-breaking of binary floats is immaterial to the claims). -/
def roundTo (places : Nat) (q : Rat) : Rat :=
  ((⌊q * (10 : Rat) ^ places + 1 / 2⌋ : Int) : Rat) / (10 : Rat) ^ places

/-- The `params` dict of `process_df`, restricted to the keys the code reads.
A `none` field models an absent key (for `threshold` / `max_per_match_id`
it also covers a present but unparseable value, which lines 79-86 replace
by the same default). -/
structure Params where
  substance_col : Option String
  ref_substance_col : Option String
  threshold : Option Rat
  max_per_match_id : Option Nat
  only_first_match : Option PyVal
deriving DecidableEq

/-- Python `params.get(key) or default` (lines 90-91): both a missing key
and an empty string are falsy and fall back to the default. -/
def pyOrDefault (v : Option String) (d : String) : String :=
  match v with
  | some s => if s == "" then d else s
  | Option.none => d

/-- Line 87: `_parse_bool(params.get("only_first_match", True))` — the
`dict.get` default is `True`, and `_parse_bool`'s own default is `False`. -/
def resolveOnlyFirstMatch (p : Params) : Bool :=
  _parse_bool (p.only_first_match.getD (PyVal.bool true)) false

/-- Lines 94-97: the subject column rendered with `astype(str)`, or an
all-empty placeholder series of the subject frame's length when the
configured column is absent. -/
def selectSubjectCol (data_df : DataFrame) (col : String) : List String :=
  match data_df.getCol col with
  | some vs => vs.map cellToStr
  | Option.none => List.replicate data_df.nrows ""

/-- Lines 99-102: the reference column rendered with `astype(str)`, or an
empty reference vocabulary when the configured column is absent. -/
def selectRefCol (ref_df : DataFrame) (col : String) : List String :=
  match ref_df.getCol col with
  | some vs => vs.map cellToStr
  | Option.none => []

/-- Modelled from the spec (§4.1): the Text Normalizer of the repository's
`utils.py` (`preprocess_data`'s per-value cleanup), which is not among the
given sources. Deterministic, input-local case folding and whitespace
cleanup. -/
def preprocess_value (s : String) : String :=
  strLower (strTrim s)

/-- Modelled from the spec (§2, §4.1): `preprocess_data` of the missing
`utils.py` — pair each original value with its normalized form. -/
def preprocess_data (col : List String) : List (String × String) :=
  col.map (fun v => (v, preprocess_value v))

/-- Modelled from the spec (§4.2): the similarity score of the matching
primitive, a library capability whose exact scoring function the spec leaves
open; scored 1 on normalized equality and 0 otherwise, which satisfies the
§4.2 contract. -/
def similarity (a b : String) : Rat :=
  if a == b then 1 else 0

/-- Stable insertion (descending by score, ties keep earlier entries first)
for the §4.2 candidate ordering. -/
def insertByScore (x : String × Rat) : List (String × Rat) → List (String × Rat)
  | [] => [x]
  | y :: ys => if x.2 ≤ y.2 then y :: insertByScore x ys else x :: y :: ys

/-- Stable sort by descending score (§4.2: "ordered by descending score;
ties broken by vocabulary order"). -/
def sortByScoreDesc : List (String × Rat) → List (String × Rat)
  | [] => []
  | x :: xs => insertByScore x (sortByScoreDesc xs)

/-- Modelled from the spec (§4.2): the Reference Matcher contract of the
missing `utils.py` — candidates below `threshold` are excluded, the rest are
ordered by descending score, at most `maxM` are returned, and at most 1 when
`firstOnly` is set. An empty vocabulary yields an empty candidate list. -/
def candidates (normVal : String) (vocab : List String) (threshold : Rat)
    (maxM : Nat) (firstOnly : Bool) : List (String × Rat) :=
  let scored := vocab.map (fun r => (r, similarity normVal (preprocess_value r)))
  let kept := scored.filter (fun c => threshold ≤ c.2)
  let capped := (sortByScoreDesc kept).take maxM
  if firstOnly then capped.take 1 else capped

/-- The consecutive indices `start, start+1, ..., start+n-1`. -/
def idxFrom (start n : Nat) : List Nat :=
  match n with
  | 0 => []
  | Nat.succ m => start :: idxFrom (start + 1) m

/-- §4.3 column naming: `Mapped_to` when `maxM = 1`, else `Mapped_to1`,
`Mapped_to2`, ... -/
def mappedColName (maxM i : Nat) : String :=
  if maxM = 1 then "Mapped_to" else "Mapped_to" ++ toString i

/-- §4.3 column naming for the score slots. -/
def scoreColName (maxM i : Nat) : String :=
  if maxM = 1 then "Score" else "Score" ++ toString i

/-- Modelled from the spec (§4.3): `get_matches` of the missing `utils.py`,
the Match Table Builder — one output row per input row, columns `Original`,
`Normalized`, then the `Mapped_to` and `Score` slots up to the cardinality
cap, empty slots left as NaN cells. -/
def get_matches (pre : List (String × String)) (vocab : List String)
    (threshold : Rat) (maxM : Nat) (firstOnly : Bool) : DataFrame :=
  let candsList := pre.map (fun pr => candidates pr.2 vocab threshold maxM firstOnly)
  { nrows := pre.length,
    cols :=
      ("Original", pre.map (fun pr => some pr.1)) ::
      ("Normalized", pre.map (fun pr => some pr.2)) ::
      ((idxFrom 1 maxM).map (fun i =>
          (mappedColName maxM i, candsList.map (fun cs => (cs[i - 1]?).map (fun c => c.1)))) ++
       (idxFrom 1 maxM).map (fun i =>
          (scoreColName maxM i, candsList.map (fun cs => (cs[i - 1]?).map (fun c => toString c.2))))) }

/-- processor.py lines 5-45: the matching pipeline — preprocess the subject
column, then fuzzy-match it against the reference column. -/
def add_substance (col_with_substances col_with_ref_substances : List String)
    (threshold : Rat) (max_per_match_id : Nat) (only_first_match : Bool) : DataFrame :=
  get_matches (preprocess_data col_with_substances) col_with_ref_substances
    threshold max_per_match_id only_first_match

/-- processor.py lines 56-68: find the column holding the mapped reference
identifier — exact name `Mapped_to` first, else the first column whose name
starts with `Mapped_to`, else `None`. -/
def _find_mapped_column (df : DataFrame) : Option String :=
  if "Mapped_to" ∈ df.colNames then some "Mapped_to"
  else df.colNames.find? (fun col => strStartsWith col "Mapped_to")

/-- Line 120: `len(combined)` where `combined` concatenates the subject frame
and the match frame column-wise; pandas aligns the two row indices, so the
combined length is the larger of the two row counts. -/
def totalRows (dataRows : Nat) (mdf : DataFrame) : Nat :=
  max dataRows mdf.nrows

/-- Lines 122-127: the boolean missing mask — all rows when no mapped column
was discovered, else `isna() | (astype(str).str.strip() == "")` over the
mapped column. -/
def missingMask (dataRows : Nat) (mdf : DataFrame) : List Bool :=
  match _find_mapped_column mdf with
  | Option.none => List.replicate (totalRows dataRows mdf) true
  | some c => ((mdf.getCol c).getD []).map isMissingCell

/-- Line 129: `missing_count = int(missing_mask.sum())`. -/
def missingCount (dataRows : Nat) (mdf : DataFrame) : Nat :=
  (missingMask dataRows mdf).count true

/-- Line 130: `missing_pct`, guarded against a zero row count. -/
def missingPct (dataRows : Nat) (mdf : DataFrame) : Rat :=
  if 0 < totalRows dataRows mdf then
    roundTo 2 ((missingCount dataRows mdf : Rat) / (totalRows dataRows mdf : Rat) * 100)
  else 0

/-- `df.loc[mask, col]`: keep the values at the positions where the equally
indexed mask is true. -/
def selectByMask (vals : List Cell) (mask : List Bool) : List Cell :=
  ((vals.zip mask).filter (fun p => p.2)).map (fun p => p.1)

/-- Lines 136-142: the `Original` values of the missing rows, rendered as
text, trimmed, with empty strings dropped. -/
def missingOriginals (dataRows : Nat) (mdf : DataFrame) : List String :=
  match mdf.getCol "Original" with
  | some vs =>
      ((selectByMask vs (missingMask dataRows mdf)).map
        (fun c => strTrim (cellToStr c))).filter (fun s => s != "")
  | Option.none => []

/-- Line 153: all `Original` values, rendered as text, trimmed, with empty
strings dropped. -/
def originalsAll (mdf : DataFrame) : List String :=
  match mdf.getCol "Original" with
  | some vs => (vs.map (fun c => strTrim (cellToStr c))).filter (fun s => s != "")
  | Option.none => []

/-- Stable insertion (descending by count) for the `value_counts` ordering. -/
def insertByCount (x : String × Nat) : List (String × Nat) → List (String × Nat)
  | [] => [x]
  | y :: ys => if x.2 ≤ y.2 then y :: insertByCount x ys else x :: y :: ys

/-- Stable sort by descending count. -/
def sortByCountDesc : List (String × Nat) → List (String × Nat)
  | [] => []
  | x :: xs => insertByCount x (sortByCountDesc xs)

/-- pandas `Series.value_counts()`: the frequency of each distinct value,
sorted by descending count (tie order implementation-defined, here stable in
first-occurrence order of the deduplicated keys). -/
def value_counts (l : List String) : List (String × Nat) :=
  sortByCountDesc (l.dedup.map (fun v => (v, l.count v)))

/-- Lines 152-158: `unique_total_values` — distinct non-empty trimmed
`Original` values, or 0 when the column is absent. -/
def uniqueTotalValues (mdf : DataFrame) : Nat :=
  match mdf.getCol "Original" with
  | some _ => (originalsAll mdf).dedup.length
  | Option.none => 0

/-- Lines 155-159: `unique_missing_count` — distinct missing originals, or
the raw `missing_count` when the `Original` column is absent. -/
def uniqueMissingCount (dataRows : Nat) (mdf : DataFrame) : Nat :=
  match mdf.getCol "Original" with
  | some _ => (missingOriginals dataRows mdf).dedup.length
  | Option.none => missingCount dataRows mdf

/-- Lines 156 and 160: `unique_missing_pct` — the divisor is
`unique_total or 1` in the `Original` branch and `total_rows or 1` in the
branch without an `Original` column. -/
def uniqueMissingPct (dataRows : Nat) (mdf : DataFrame) : Rat :=
  match mdf.getCol "Original" with
  | some _ =>
      roundTo 2 ((uniqueMissingCount dataRows mdf : Rat) /
        (if uniqueTotalValues mdf = 0 then 1 else (uniqueTotalValues mdf : Rat)) * 100)
  | Option.none =>
      roundTo 2 ((missingCount dataRows mdf : Rat) /
        (if totalRows dataRows mdf = 0 then 1 else (totalRows dataRows mdf : Rat)) * 100)

/-- Lines 132-150: the top-20 most frequent missing original values as
`(value, count)` pairs, empty when the `Original` column is absent. -/
def uniqueMissingExamples (dataRows : Nat) (mdf : DataFrame) : List (String × Nat) :=
  match mdf.getCol "Original" with
  | some _ =>
      if (missingOriginals dataRows mdf).isEmpty then []
      else (value_counts (missingOriginals dataRows mdf)).take 20
  | Option.none => []

/-- The `stats` dict returned by `process_df` (lines 165-176). -/
structure Stats where
  total_rows : Nat
  missing_count : Nat
  missing_pct : Rat
  unique_total_values : Nat
  unique_missing_count : Nat
  unique_missing_pct : Rat
  processing_seconds : Rat
  columns_out : List String
  mapped_column : Option String
  unique_missing_examples : List (String × Nat)
deriving DecidableEq

/-- Lines 113-176: the statistics computed from the subject frame's row count
and the match frame. `elapsed` is the wall-clock reading
`time.time() - start`, an input of the model. -/
def computeStats (dataRows : Nat) (mdf : DataFrame) (elapsed : Rat) : Stats :=
  { total_rows := totalRows dataRows mdf,
    missing_count := missingCount dataRows mdf,
    missing_pct := missingPct dataRows mdf,
    unique_total_values := uniqueTotalValues mdf,
    unique_missing_count := uniqueMissingCount dataRows mdf,
    unique_missing_pct := uniqueMissingPct dataRows mdf,
    processing_seconds := roundTo 4 elapsed,
    columns_out := mdf.colNames,
    mapped_column := _find_mapped_column mdf,
    unique_missing_examples := uniqueMissingExamples dataRows mdf }

/-- processor.py lines 70-178: parse the params, select the two columns with
their fallbacks, run `add_substance`, and aggregate the statistics. -/
def process_df (data_df ref_df : DataFrame) (p : Params) (elapsed : Rat) :
    DataFrame × Stats :=
  let threshold := p.threshold.getD (mkRat 85 100)
  let max_per_match_id := p.max_per_match_id.getD 2
  let only_first_match := resolveOnlyFirstMatch p
  let col_series := selectSubjectCol data_df (pyOrDefault p.substance_col "substance")
  let ref_series := selectRefCol ref_df (pyOrDefault p.ref_substance_col "substance")
  let match_df := add_substance col_series ref_series threshold max_per_match_id only_first_match
  (match_df, computeStats data_df.nrows match_df elapsed)

/-! ## Helper lemmas -/

lemma count_true_map {α : Type} (f : α → Bool) (l : List α) :
    (l.map f).count true = l.countP f := by
  induction l with
  | nil => rfl
  | cons x xs ih =>
    cases hfx : f x <;>
      simp [List.count_cons, List.countP_cons, ih, hfx]

lemma mem_insertByCount {a x : String × Nat} {l : List (String × Nat)} :
    a ∈ insertByCount x l ↔ a = x ∨ a ∈ l := by
  induction l with
  | nil => simp [insertByCount]
  | cons y ys ih =>
    rw [insertByCount]
    by_cases h : x.2 ≤ y.2
    · rw [if_pos h]
      simp only [List.mem_cons, ih]
      tauto
    · rw [if_neg h]
      simp only [List.mem_cons]

lemma pairwise_insertByCount {x : String × Nat} {l : List (String × Nat)}
    (h : l.Pairwise (fun a b => b.2 ≤ a.2)) :
    (insertByCount x l).Pairwise (fun a b => b.2 ≤ a.2) := by
  induction l with
  | nil => simp [insertByCount]
  | cons y ys ih =>
    rw [insertByCount]
    rcases List.pairwise_cons.mp h with ⟨hy, hys⟩
    by_cases hxy : x.2 ≤ y.2
    · rw [if_pos hxy]
      refine List.pairwise_cons.mpr ⟨?_, ih hys⟩
      intro z hz
      rcases mem_insertByCount.mp hz with rfl | hz
      · exact hxy
      · exact hy z hz
    · rw [if_neg hxy]
      have hyx : y.2 ≤ x.2 := Nat.le_of_not_le hxy
      refine List.pairwise_cons.mpr ⟨?_, h⟩
      intro z hz
      rcases List.mem_cons.mp hz with rfl | hz
      · exact hyx
      · exact Nat.le_trans (hy z hz) hyx

lemma pairwise_sortByCountDesc (l : List (String × Nat)) :
    (sortByCountDesc l).Pairwise (fun a b => b.2 ≤ a.2) := by
  induction l with
  | nil => simp [sortByCountDesc]
  | cons x xs ih =>
    rw [sortByCountDesc]
    exact pairwise_insertByCount ih

lemma mem_sortByCountDesc {a : String × Nat} {l : List (String × Nat)} :
    a ∈ sortByCountDesc l ↔ a ∈ l := by
  induction l with
  | nil => simp [sortByCountDesc]
  | cons x xs ih =>
    rw [sortByCountDesc, mem_insertByCount]
    simp [ih]

lemma mem_value_counts {p : String × Nat} {l : List String} (h : p ∈ value_counts l) :
    p.2 = l.count p.1 ∧ p.1 ∈ l := by
  rw [value_counts, mem_sortByCountDesc] at h
  rcases List.mem_map.mp h with ⟨v, hv, rfl⟩
  exact ⟨rfl, List.mem_dedup.mp hv⟩

lemma getCol_eq_none {df : DataFrame} {c : String} (h : c ∉ df.colNames) :
    df.getCol c = Option.none := by
  have hfind : df.cols.find? (fun col => col.1 == c) = Option.none := by
    refine List.find?_eq_none.mpr (fun x hx hpx => h ?_)
    have hx1 : x.1 = c := by simpa using hpx
    exact hx1 ▸ List.mem_map.mpr ⟨x, hx, rfl⟩
  rw [DataFrame.getCol, hfind]
  rfl

lemma getCol_mem {df : DataFrame} {c : String} {vs : List Cell}
    (h : df.getCol c = some vs) :
    ∃ col ∈ df.cols, col.1 = c ∧ col.2 = vs := by
  rw [DataFrame.getCol] at h
  cases hf : df.cols.find? (fun col => col.1 == c) with
  | none => rw [hf] at h; cases h
  | some col =>
    rw [hf] at h
    have hv : col.2 = vs := by simpa using h
    exact ⟨col, List.mem_of_find?_eq_some hf, by simpa using List.find?_some hf, hv⟩

lemma getCol_isSome_of_mem {df : DataFrame} {c : String} (h : c ∈ df.colNames) :
    ∃ vs, df.getCol c = some vs := by
  rcases List.mem_map.mp h with ⟨col, hcol, rfl⟩
  have hsome : (df.cols.find? (fun x => x.1 == col.1)).isSome :=
    List.find?_isSome.mpr ⟨col, hcol, by simp⟩
  rw [DataFrame.getCol]
  cases hf : df.cols.find? (fun x => x.1 == col.1) with
  | none => rw [hf] at hsome; cases hsome
  | some x => exact ⟨x.2, rfl⟩

lemma length_selectSubjectCol {d : DataFrame} (hwf : d.WF) (c : String) :
    (selectSubjectCol d c).length = d.nrows := by
  rw [selectSubjectCol]
  cases h : d.getCol c with
  | none => simp
  | some vs =>
    rcases getCol_mem h with ⟨col, hcol, _, hvals⟩
    simp [← hvals, hwf col hcol]

lemma add_substance_nrows (col ref : List String) (t : Rat) (m : Nat) (f : Bool) :
    (add_substance col ref t m f).nrows = col.length := by
  simp [add_substance, get_matches, preprocess_data]

lemma candidates_nil (v : String) (t : Rat) (m : Nat) (f : Bool) :
    candidates v [] t m f = [] := by
  cases f <;> simp [candidates, sortByScoreDesc]

lemma get_matches_empty_vocab_cols {pre : List (String × String)} {t : Rat}
    {m : Nat} {f : Bool} :
    ∀ col ∈ (get_matches pre [] t m f).cols,
      col.1 = "Original" ∨ col.1 = "Normalized" ∨
        col.2 = pre.map (fun _ => (Option.none : Cell)) := by
  intro col hcol
  simp only [get_matches] at hcol
  rcases List.mem_cons.mp hcol with rfl | hcol
  · exact Or.inl rfl
  rcases List.mem_cons.mp hcol with rfl | hcol
  · exact Or.inr (Or.inl rfl)
  refine Or.inr (Or.inr ?_)
  rcases List.mem_append.mp hcol with hcol | hcol <;>
  · rcases List.mem_map.mp hcol with ⟨i, _, rfl⟩
    rw [List.map_map]
    refine List.map_congr_left (fun pr _ => ?_)
    simp [Function.comp, candidates_nil]

lemma missingCount_empty_vocab {dataRows : Nat} {col : List String} {t : Rat}
    {m : Nat} {f : Bool} (hlen : col.length = dataRows) :
    missingCount dataRows (add_substance col [] t m f)
      = totalRows dataRows (add_substance col [] t m f) := by
  have hn : (add_substance col [] t m f).nrows = dataRows := by
    rw [add_substance_nrows, hlen]
  have htot : totalRows dataRows (add_substance col [] t m f) = dataRows := by
    rw [totalRows, hn, Nat.max_self]
  have hplen : (preprocess_data col).length = dataRows := by
    simp [preprocess_data, hlen]
  cases hm : _find_mapped_column (add_substance col [] t m f) with
  | none =>
    simp only [missingCount, missingMask, hm]
    rw [htot, List.count_replicate_self]
  | some c =>
    -- the discovered column is neither `Original` nor `Normalized`
    have hkey : c = "Mapped_to" ∨ strStartsWith c "Mapped_to" = true := by
      rw [_find_mapped_column] at hm
      by_cases hmem : "Mapped_to" ∈ (add_substance col [] t m f).colNames
      · rw [if_pos hmem] at hm
        exact Or.inl (by simpa using hm.symm)
      · rw [if_neg hmem] at hm
        exact Or.inr (by simpa using List.find?_some hm)
    have hcmem : c ∈ (add_substance col [] t m f).colNames := by
      rw [_find_mapped_column] at hm
      by_cases hmem : "Mapped_to" ∈ (add_substance col [] t m f).colNames
      · rw [if_pos hmem] at hm
        have h2 : "Mapped_to" = c := by simpa using hm
        exact h2 ▸ hmem
      · rw [if_neg hmem] at hm
        exact List.mem_of_find?_eq_some hm
    have hcO : c ≠ "Original" := by
      rcases hkey with rfl | hpre
      · decide
      · rintro rfl
        exact absurd hpre (by decide)
    have hcN : c ≠ "Normalized" := by
      rcases hkey with rfl | hpre
      · decide
      · rintro rfl
        exact absurd hpre (by decide)
    obtain ⟨vs, hvs⟩ := getCol_isSome_of_mem hcmem
    rcases getCol_mem hvs with ⟨colp, hcolp, hname, hvals⟩
    have hnone : colp.2 = (preprocess_data col).map (fun _ => (Option.none : Cell)) := by
      rcases get_matches_empty_vocab_cols colp hcolp with h1 | h1 | h1
      · exact absurd (hname ▸ h1 : c = "Original") hcO
      · exact absurd (hname ▸ h1 : c = "Normalized") hcN
      · exact h1
    simp only [missingCount, missingMask, hm]
    rw [hvs, Option.getD_some, ← hvals, hnone, count_true_map, htot]
    rw [List.countP_eq_length.mpr
      (by intro a ha; rcases List.mem_map.mp ha with ⟨pr, _, rfl⟩; rfl)]
    simp [hplen]

/-! ## Concrete frames and parameter records used by witnesses and
counterexamples -/

/-- A one-row subject frame with the default `substance` column. -/
def sampleData : DataFrame := ⟨1, [("substance", [some "aspirin"])]⟩

/-- A one-row reference frame with the default `substance` column. -/
def sampleRef : DataFrame := ⟨1, [("substance", [some "aspirin"])]⟩

/-- A params dict with every key absent. -/
def emptyParams : Params :=
  ⟨Option.none, Option.none, Option.none, Option.none, Option.none⟩

/-- A match table without an `Original` column and without any `Mapped_to`
column. -/
def noOriginalFrame : DataFrame := ⟨2, [("X", [some "a", some "b"])]⟩

/-- A match table whose columns contain no `Mapped_to` name at all. -/
def noMappedFrame : DataFrame := ⟨1, [("Original", [some "a"])]⟩

/-- A one-row match table with an unmatched `Original` value. -/
def oneMissingFrame : DataFrame :=
  ⟨1, [("Original", [some "a"]), ("Mapped_to", [Option.none])]⟩

/-- A two-column subject frame that lacks the default `substance` column. -/
def noSubstanceData : DataFrame := ⟨2, [("other", [some "a", some "b"])]⟩

/-- A reference frame that lacks the default `substance` column. -/
def noSubstanceRef : DataFrame := ⟨1, [("other", [some "x"])]⟩

/-- `process_df` only reads the parameter record through the five resolved
values, so two records resolving identically give identical runs. -/
lemma process_df_congr {d r : DataFrame} {p q : Params} {e : Rat}
    (h1 : p.threshold = q.threshold) (h2 : p.max_per_match_id = q.max_per_match_id)
    (h3 : resolveOnlyFirstMatch p = resolveOnlyFirstMatch q)
    (h4 : p.substance_col = q.substance_col)
    (h5 : p.ref_substance_col = q.ref_substance_col) :
    process_df d r p e = process_df d r q e := by
  simp only [process_df, h1, h2, h3, h4, h5]

/-! ## The claims -/

/-- C1, counterexample: with `only_first_match` absent from the params, the
pipeline resolves the flag to `true`, not `false` as the claim states —
line 87 passes `True` as the `dict.get` default. -/
theorem only_first_match_absent_claim_false :
    resolveOnlyFirstMatch emptyParams ≠ false := by decide

/-- C1, amended: when `only_first_match` is not explicitly present in the
params, the pipeline runs with `only_first_match = true` (collapsing to a
single best match by default), exactly as if the caller had passed `True`. -/
theorem only_first_match_absent_resolves_true (p : Params)
    (h : p.only_first_match = Option.none) :
    resolveOnlyFirstMatch p = true ∧
    ∀ (d r : DataFrame) (e : Rat),
      process_df d r p e
        = process_df d r { p with only_first_match := some (PyVal.bool true) } e := by
  have hres : resolveOnlyFirstMatch p = true := by
    rw [resolveOnlyFirstMatch, h]
    rfl
  exact ⟨hres, fun d r e => process_df_congr rfl rfl (by rw [hres]; rfl) rfl rfl⟩

/-- C1, witness for the amended claim at the all-absent params record. -/
theorem only_first_match_absent_resolves_true_witness :
    resolveOnlyFirstMatch emptyParams = true ∧
    process_df sampleData sampleRef emptyParams 0
      = process_df sampleData sampleRef
          { emptyParams with only_first_match := some (PyVal.bool true) } 0 :=
  ⟨(only_first_match_absent_resolves_true emptyParams rfl).1,
   (only_first_match_absent_resolves_true emptyParams rfl).2 sampleData sampleRef 0⟩

/-- C2, counterexample: two runs of `process_df` on identical frames and
params but different wall-clock elapsed readings report different
`processing_seconds`, so the statistics records are not identical. -/
theorem processing_seconds_not_deterministic :
    (process_df sampleData sampleRef emptyParams 0).2.processing_seconds ≠
      (process_df sampleData sampleRef emptyParams 1).2.processing_seconds := by
  have h0 : (process_df sampleData sampleRef emptyParams 0).2.processing_seconds
      = roundTo 4 0 := rfl
  have h1 : (process_df sampleData sampleRef emptyParams 1).2.processing_seconds
      = roundTo 4 1 := rfl
  rw [h0, h1]
  norm_num [roundTo]

/-- C2, amended: two runs of `process_df` on identical subject frame,
reference frame and params return identical match tables and statistics
identical in every field except `processing_seconds`, which is the rounded
wall-clock reading of the respective run. -/
theorem pipeline_deterministic_except_timing (d r : DataFrame) (p : Params)
    (e1 e2 : Rat) :
    (process_df d r p e1).1 = (process_df d r p e2).1 ∧
    (process_df d r p e1).2.total_rows = (process_df d r p e2).2.total_rows ∧
    (process_df d r p e1).2.missing_count = (process_df d r p e2).2.missing_count ∧
    (process_df d r p e1).2.missing_pct = (process_df d r p e2).2.missing_pct ∧
    (process_df d r p e1).2.unique_total_values
      = (process_df d r p e2).2.unique_total_values ∧
    (process_df d r p e1).2.unique_missing_count
      = (process_df d r p e2).2.unique_missing_count ∧
    (process_df d r p e1).2.unique_missing_pct
      = (process_df d r p e2).2.unique_missing_pct ∧
    (process_df d r p e1).2.columns_out = (process_df d r p e2).2.columns_out ∧
    (process_df d r p e1).2.mapped_column = (process_df d r p e2).2.mapped_column ∧
    (process_df d r p e1).2.unique_missing_examples
      = (process_df d r p e2).2.unique_missing_examples ∧
    (process_df d r p e1).2.processing_seconds = roundTo 4 e1 :=
  ⟨rfl, rfl, rfl, rfl, rfl, rfl, rfl, rfl, rfl, rfl, rfl⟩

/-- C3: mapped-column discovery returns the exact name `Mapped_to` when
present, otherwise the first column name starting with `Mapped_to`, and when
no column name starts with `Mapped_to` it returns `none` and every row of
the table is counted as missing. -/
theorem find_mapped_column_spec (mdf : DataFrame) (dataRows : Nat) (elapsed : Rat) :
    ("Mapped_to" ∈ mdf.colNames → _find_mapped_column mdf = some "Mapped_to") ∧
    ("Mapped_to" ∉ mdf.colNames →
      _find_mapped_column mdf
        = mdf.colNames.find? (fun c => strStartsWith c "Mapped_to")) ∧
    ((∀ c ∈ mdf.colNames, strStartsWith c "Mapped_to" = false) →
      _find_mapped_column mdf = Option.none ∧
      (computeStats dataRows mdf elapsed).missing_count
        = (computeStats dataRows mdf elapsed).total_rows) := by
  refine ⟨fun h => ?_, fun h => ?_, fun h => ?_⟩
  · rw [_find_mapped_column, if_pos h]
  · rw [_find_mapped_column, if_neg h]
  · have hmem : "Mapped_to" ∉ mdf.colNames := fun hm =>
      absurd (h _ hm) (by decide)
    have hfind : mdf.colNames.find? (fun c => strStartsWith c "Mapped_to")
        = Option.none :=
      List.find?_eq_none.mpr (fun x hx => by simp [h x hx])
    have hnone : _find_mapped_column mdf = Option.none := by
      rw [_find_mapped_column, if_neg hmem, hfind]
    refine ⟨hnone, ?_⟩
    show missingCount dataRows mdf = totalRows dataRows mdf
    simp only [missingCount, missingMask, hnone]
    exact List.count_replicate_self _ _

/-- C3, witness at a frame with no `Mapped_to`-prefixed column. -/
theorem find_mapped_column_spec_witness :
    _find_mapped_column noMappedFrame = Option.none ∧
    (computeStats 1 noMappedFrame 0).missing_count
      = (computeStats 1 noMappedFrame 0).total_rows :=
  (find_mapped_column_spec noMappedFrame 1 0).2.2 (by decide)

/-- C4: given a discovered mapped column with values `vs`, `missing_count`
is exactly the number of cells of `vs` that are null or whose trimmed text
rendering is the empty string. -/
theorem missing_count_counts_blank_or_null (dataRows : Nat) (mdf : DataFrame)
    (elapsed : Rat) (c : String) (vs : List Cell)
    (h1 : _find_mapped_column mdf = some c) (h2 : mdf.getCol c = some vs) :
    (computeStats dataRows mdf elapsed).missing_count
      = vs.countP (fun v => v.isNone || (strTrim (cellToStr v) == "")) := by
  show missingCount dataRows mdf = _
  simp only [missingCount, missingMask, h1, h2, Option.getD_some]
  rw [count_true_map]
  rfl

/-- C4, witness at a one-row frame whose mapped cell is null. -/
theorem missing_count_counts_blank_or_null_witness :
    (computeStats 1 oneMissingFrame 0).missing_count
      = [(Option.none : Cell)].countP
          (fun v => v.isNone || (strTrim (cellToStr v) == "")) :=
  missing_count_counts_blank_or_null 1 oneMissingFrame 0 "Mapped_to"
    [Option.none] (by decide) (by decide)

/-- C5: `missing_pct` is the rounded percentage when `total_rows > 0` and
exactly 0 when `total_rows = 0`; being a total Lean function, the
computation never raises. -/
theorem missing_pct_zero_guard (dataRows : Nat) (mdf : DataFrame) (elapsed : Rat) :
    (computeStats dataRows mdf elapsed).missing_pct =
      if 0 < (computeStats dataRows mdf elapsed).total_rows then
        roundTo 2 (((computeStats dataRows mdf elapsed).missing_count : Rat) /
          ((computeStats dataRows mdf elapsed).total_rows : Rat) * 100)
      else 0 := rfl

/-- C6, counterexample: a two-row match table without an `Original` column
has `unique_total_values = 0`, yet `unique_missing_pct` is 100 (divisor
`total_rows = 2`), not the claim's `unique_missing_count / 1 * 100 = 200`. -/
theorem unique_missing_pct_divisor_counterexample :
    (computeStats 2 noOriginalFrame 0).unique_total_values = 0 ∧
    (computeStats 2 noOriginalFrame 0).unique_missing_pct ≠
      roundTo 2 (((computeStats 2 noOriginalFrame 0).unique_missing_count : Rat)
        / 1 * 100) := by
  constructor
  · decide
  · have hc : (computeStats 2 noOriginalFrame 0).unique_missing_count = 2 := by decide
    have h1 : (computeStats 2 noOriginalFrame 0).unique_missing_pct
        = roundTo 2 (((2 : Nat) : Rat) / ((2 : Nat) : Rat) * 100) := rfl
    rw [h1, hc]
    norm_num [roundTo]

/-- C6, amended: when the match table has an `Original` column, the divisor
of `unique_missing_pct` is 1 whenever `unique_total_values = 0`; when the
`Original` column is absent (the branch in which `unique_total_values` is
also 0), the divisor is `total_rows`, with 1 substituted only when
`total_rows = 0`. -/
theorem unique_missing_pct_branch_divisors (dataRows : Nat) (mdf : DataFrame)
    (elapsed : Rat) :
    (computeStats dataRows mdf elapsed).unique_missing_pct =
      if (mdf.getCol "Original").isSome then
        roundTo 2 (((computeStats dataRows mdf elapsed).unique_missing_count : Rat) /
          (if (computeStats dataRows mdf elapsed).unique_total_values = 0 then 1
           else ((computeStats dataRows mdf elapsed).unique_total_values : Rat)) * 100)
      else
        roundTo 2 (((computeStats dataRows mdf elapsed).unique_missing_count : Rat) /
          (if (computeStats dataRows mdf elapsed).total_rows = 0 then 1
           else ((computeStats dataRows mdf elapsed).total_rows : Rat)) * 100) := by
  cases h : mdf.getCol "Original" with
  | none =>
    simp [computeStats, uniqueMissingPct, uniqueMissingCount, uniqueTotalValues, h]
  | some vs =>
    simp [computeStats, uniqueMissingPct, uniqueMissingCount, uniqueTotalValues, h]

/-- C7: `unique_missing_examples` holds at most 20 pairs, is ordered by
non-increasing count, and each pair is a trimmed non-empty missing original
value together with its frequency among the missing originals. -/
theorem top_missing_bounded_sorted_counts (dataRows : Nat) (mdf : DataFrame)
    (elapsed : Rat) :
    (computeStats dataRows mdf elapsed).unique_missing_examples.length ≤ 20 ∧
    (computeStats dataRows mdf elapsed).unique_missing_examples.Pairwise
      (fun a b => b.2 ≤ a.2) ∧
    ∀ pr ∈ (computeStats dataRows mdf elapsed).unique_missing_examples,
      pr.2 = (missingOriginals dataRows mdf).count pr.1 ∧
      pr.1 ∈ missingOriginals dataRows mdf := by
  have hred : (computeStats dataRows mdf elapsed).unique_missing_examples
      = uniqueMissingExamples dataRows mdf := rfl
  rw [hred]
  cases h : mdf.getCol "Original" with
  | none => simp [uniqueMissingExamples, h]
  | some vs =>
    simp only [uniqueMissingExamples, h]
    by_cases he : (missingOriginals dataRows mdf).isEmpty
    · simp [he]
    · rw [if_neg he]
      refine ⟨?_, ?_, ?_⟩
      · rw [List.length_take]
        exact Nat.min_le_left _ _
      · exact List.Pairwise.sublist (List.take_sublist _ _) (pairwise_sortByCountDesc _)
      · intro pr hpr
        exact mem_value_counts (List.mem_of_mem_take hpr)

/-- C7, witness at a frame with one missing original value. -/
theorem top_missing_bounded_sorted_counts_witness :
    ("a", 1).2 = (missingOriginals 1 oneMissingFrame).count ("a", 1).1 ∧
    ("a", 1).1 ∈ missingOriginals 1 oneMissingFrame :=
  (top_missing_bounded_sorted_counts 1 oneMissingFrame 0).2.2 ("a", 1) (by decide)

/-- C8: missing configured columns never fail the run — an absent subject
column is replaced by an all-empty placeholder of the subject frame's row
count, and an absent reference column by an empty vocabulary, which leaves
every row unmatched. -/
theorem column_fallback_spec (d r : DataFrame) (p : Params) (e : Rat) :
    (pyOrDefault p.substance_col "substance" ∉ d.colNames →
      selectSubjectCol d (pyOrDefault p.substance_col "substance")
        = List.replicate d.nrows "") ∧
    (pyOrDefault p.ref_substance_col "substance" ∉ r.colNames →
      selectRefCol r (pyOrDefault p.ref_substance_col "substance") = [] ∧
      (d.WF →
        (process_df d r p e).2.missing_count = (process_df d r p e).2.total_rows)) := by
  refine ⟨fun hs => ?_, fun hr => ⟨?_, fun hwf => ?_⟩⟩
  · rw [selectSubjectCol, getCol_eq_none hs]
  · rw [selectRefCol, getCol_eq_none hr]
  · have hsel : selectRefCol r (pyOrDefault p.ref_substance_col "substance") = [] := by
      rw [selectRefCol, getCol_eq_none hr]
    show missingCount d.nrows
        (add_substance (selectSubjectCol d (pyOrDefault p.substance_col "substance"))
          (selectRefCol r (pyOrDefault p.ref_substance_col "substance"))
          (p.threshold.getD (mkRat 85 100)) (p.max_per_match_id.getD 2)
          (resolveOnlyFirstMatch p))
      = totalRows d.nrows
        (add_substance (selectSubjectCol d (pyOrDefault p.substance_col "substance"))
          (selectRefCol r (pyOrDefault p.ref_substance_col "substance"))
          (p.threshold.getD (mkRat 85 100)) (p.max_per_match_id.getD 2)
          (resolveOnlyFirstMatch p))
    rw [hsel]
    exact missingCount_empty_vocab (length_selectSubjectCol hwf _)

/-- C8, witness: with both configured columns absent, the placeholder and
the empty vocabulary are used, and every row is missing. -/
theorem column_fallback_spec_witness :
    selectSubjectCol noSubstanceData "substance" = List.replicate 2 "" ∧
    selectRefCol noSubstanceRef "substance" = [] ∧
    (process_df noSubstanceData noSubstanceRef emptyParams 0).2.missing_count
      = (process_df noSubstanceData noSubstanceRef emptyParams 0).2.total_rows :=
  ⟨(column_fallback_spec noSubstanceData noSubstanceRef emptyParams 0).1 (by decide),
   ((column_fallback_spec noSubstanceData noSubstanceRef emptyParams 0).2 (by decide)).1,
   ((column_fallback_spec noSubstanceData noSubstanceRef emptyParams 0).2
      (by decide)).2 (by decide)⟩

/-- C9: for a rectangular subject frame, the `total_rows` statistic equals
the row count of the match table returned by the matcher (the two always
agree because the matcher emits one row per subject row, so the positional
concat does not inflate the count). -/
theorem total_rows_eq_match_table_rows (d r : DataFrame) (p : Params) (e : Rat)
    (hwf : d.WF) :
    (process_df d r p e).2.total_rows = (process_df d r p e).1.nrows := by
  have h1 : (process_df d r p e).1 = add_substance
      (selectSubjectCol d (pyOrDefault p.substance_col "substance"))
      (selectRefCol r (pyOrDefault p.ref_substance_col "substance"))
      (p.threshold.getD (mkRat 85 100)) (p.max_per_match_id.getD 2)
      (resolveOnlyFirstMatch p) := rfl
  have h2 : (process_df d r p e).2.total_rows
      = totalRows d.nrows (process_df d r p e).1 := rfl
  rw [h2, h1, totalRows, add_substance_nrows, length_selectSubjectCol hwf,
    Nat.max_self]

/-- C9, witness at a rectangular two-row subject frame. -/
theorem total_rows_eq_match_table_rows_witness :
    (process_df noSubstanceData sampleRef emptyParams 0).2.total_rows
      = (process_df noSubstanceData sampleRef emptyParams 0).1.nrows :=
  total_rows_eq_match_table_rows noSubstanceData sampleRef emptyParams 0 (by decide)

/-- C10: `_parse_bool` returns the boolean itself, the default on `None`,
and otherwise tests whether the trimmed lowercased string rendering is one
of "1", "true", "yes", "on"; values such as "y", "t" or "TRUE!" yield
`false`, and the function is total. -/
theorem parse_bool_spec (d b : Bool) (s : String) :
    _parse_bool PyVal.none d = d ∧
    _parse_bool (PyVal.bool b) d = b ∧
    _parse_bool (PyVal.str s) d
      = ["1", "true", "yes", "on"].contains (strLower (strTrim s)) ∧
    _parse_bool (PyVal.str "y") d = false ∧
    _parse_bool (PyVal.str "t") d = false ∧
    _parse_bool (PyVal.str "TRUE!") d = false :=
  ⟨rfl, rfl, rfl, rfl, rfl, rfl⟩

end SubstanceFinder
